import Mathlib

/-!
Verification of the TrainFarm screen-automation repository.

Each definition below is a shallow embedding of a function from the
repository's Python source.  External collaborators (the `cv2` image
library, `pyautogui` capture/injection, `pytesseract` OCR, Python's
`difflib.SequenceMatcher`) are modelled as oracle inputs: the embedded
code receives their outputs as explicit arguments or environment
fields, and the repository's own logic around them is translated
line by line.  Machine arithmetic notes: Python `int(x)` truncates a
real value toward zero (`pyInt` below), Python `//` is floor division
(`Int.fdiv`), and Python floats are modelled by exact rationals.
-/

namespace TrainFarm

/-- Python `int(x)` on a real value: truncation toward zero. -/
def pyInt (q : ℚ) : ℤ :=
  if 0 ≤ q then ⌊q⌋ else -⌊-q⌋

/-- A screen point (logical coordinates unless stated otherwise). -/
structure Pos where
  x : ℤ
  y : ℤ
deriving DecidableEq

/-- A rectangular screen region `(x, y, width, height)`. -/
structure Region where
  x : ℤ
  y : ℤ
  w : ℤ
  h : ℤ
deriving DecidableEq

/-! ## src/src/detectors/template_matcher.py -/

/-- Embeds `get_scale_factor` (template_matcher.py lines 20-41): the mean of the
width ratio and the height ratio between the full physical capture and
the logical screen size. -/
def getScaleFactor (screenW screenH shotW shotH : ℕ) : ℚ :=
  ((shotW : ℚ) / (screenW : ℚ) + (shotH : ℚ) / (screenH : ℚ)) / 2

/-- Logical-to-physical conversion used when cropping a region
(template_matcher.py lines 85-88): `int(x * scale_factor)`. -/
def toPhysical (p : ℤ) (s : ℚ) : ℤ :=
  pyInt ((p : ℚ) * s)

/-- Physical-to-logical conversion used on every returned coordinate
(template_matcher.py lines 122-128): `int(x / scale_factor)`. -/
def toLogical (q : ℤ) (s : ℚ) : ℤ :=
  pyInt ((q : ℚ) / s)

/-- Error raised by an external library call; `sizeAssert` is
`cv2.matchTemplate`'s assertion failure when the searched image is
smaller than the template, `fileNotFound` the `FileNotFoundError`
raised when the template image is missing. -/
inductive CvErr where
  | sizeAssert
  | fileNotFound
deriving DecidableEq

/-- External `cv2.matchTemplate`; per OpenCV's documented contract it
requires the searched image to be at least as large as the template in
both dimensions and raises an assertion error otherwise.  The score
field it computes is supplied by the oracle; only the precondition is
modelled here. -/
def matchTemplateCheck (imgW imgH tW tH : ℕ) : Except CvErr Unit :=
  if tW ≤ imgW ∧ tH ≤ imgH then Except.ok () else Except.error CvErr.sizeAssert

/-- One match record as returned by `find_template_on_screen`
(template_matcher.py lines 121-129). -/
structure MatchRec where
  x : ℤ
  y : ℤ
  topLeft : Pos
  bottomRight : Pos
  confidence : ℚ
  width : ℤ
  height : ℤ
deriving DecidableEq

/-- Oracle environment for the template matcher: the screen sizes read
from `pyautogui`, the dimensions of captured screenshots, the template
image on disk, and the score peak / score grid that
`cv2.matchTemplate` computes on the captured pixels. -/
structure TMEnv where
  screenW : ℕ
  screenH : ℕ
  fullShotW : ℕ
  fullShotH : ℕ
  captureDims : Option Region → ℕ × ℕ
  templateDims : Option (ℕ × ℕ)
  peakVal : ℚ
  peakLoc : ℕ × ℕ
  grid : List (List ℚ)

/-- The scale factor as computed inside the matcher:
`get_scale_factor()` reading the live screen. -/
def TMEnv.scale (env : TMEnv) : ℚ :=
  getScaleFactor env.screenW env.screenH env.fullShotW env.fullShotH

/-- Embeds `find_template_on_screen` (template_matcher.py lines 44-129) on the
path where no pre-captured screenshot is supplied: capture the screen
(or the given region), load the template, run `cv2.matchTemplate`,
and if the peak score reaches the threshold convert the best location
to logical coordinates.  The capture and the score peak are oracle
fields of `env`. -/
def findTemplateOnScreen (env : TMEnv) (threshold : ℚ) (region : Option Region) :
    Except CvErr (Option MatchRec) := do
  let (imgW, imgH) := env.captureDims region
  let (regionX, regionY) :=
    match region with
    | some r => (r.x, r.y)
    | none => ((0 : ℤ), (0 : ℤ))
  match env.templateDims with
  | none => Except.error CvErr.fileNotFound
  | some (tW, tH) =>
    let _ ← matchTemplateCheck imgW imgH tW tH
    if env.peakVal < threshold then
      return none
    else
      let s := env.scale
      let (lx, ly) := env.peakLoc
      let centerX : ℤ := (lx : ℤ) + (tW : ℤ) / 2
      let centerY : ℤ := (ly : ℤ) + (tH : ℤ) / 2
      return some
        { x := toLogical centerX s + regionX
          y := toLogical centerY s + regionY
          topLeft := ⟨toLogical (lx : ℤ) s + regionX, toLogical (ly : ℤ) s + regionY⟩
          bottomRight := ⟨toLogical ((lx : ℤ) + (tW : ℤ)) s + regionX,
                          toLogical ((ly : ℤ) + (tH : ℤ)) s + regionY⟩
          confidence := env.peakVal
          width := toLogical (tW : ℤ) s
          height := toLogical (tH : ℤ) s }

/-- The grid positions where the score reaches the threshold, in the
order produced by `np.where(result >= threshold)` followed by
`zip(*locations[::-1])`: row-major, `(x, y)` pairs
(template_matcher.py lines 183-186). -/
def whereAtLeast (grid : List (List ℚ)) (threshold : ℚ) : List (ℕ × ℕ) :=
  (grid.enum.map fun yRow =>
    (yRow.2.enum.filterMap fun xv =>
      if threshold ≤ xv.2 then some (xv.1, yRow.1) else none)).flatten

/-- Embeds `find_all_matches` (template_matcher.py lines 132-204), same oracle
conventions as `findTemplateOnScreen`: every location whose score
reaches the threshold becomes a match record; no deduplication is
performed. -/
def findAllMatches (env : TMEnv) (threshold : ℚ) (region : Option Region) :
    Except CvErr (List MatchRec) := do
  let (imgW, imgH) := env.captureDims region
  let (regionX, regionY) :=
    match region with
    | some r => (r.x, r.y)
    | none => ((0 : ℤ), (0 : ℤ))
  match env.templateDims with
  | none => Except.error CvErr.fileNotFound
  | some (tW, tH) =>
    let _ ← matchTemplateCheck imgW imgH tW tH
    let s := env.scale
    return (whereAtLeast env.grid threshold).map fun pt =>
      let centerX : ℤ := (pt.1 : ℤ) + (tW : ℤ) / 2
      let centerY : ℤ := (pt.2 : ℤ) + (tH : ℤ) / 2
      { x := toLogical centerX s + regionX
        y := toLogical centerY s + regionY
        topLeft := ⟨toLogical (pt.1 : ℤ) s + regionX, toLogical (pt.2 : ℤ) s + regionY⟩
        bottomRight := ⟨toLogical ((pt.1 : ℤ) + (tW : ℤ)) s + regionX,
                        toLogical ((pt.2 : ℤ) + (tH : ℤ)) s + regionY⟩
        confidence := (match env.grid.get? pt.2 with
                       | some row => (row.get? pt.1).getD 0
                       | none => 0)
        width := toLogical (tW : ℤ) s
        height := toLogical (tH : ℤ) s }

/-! ## src/material_scanner.py : _find_material_with_features -/

/-- A match dictionary built by `_find_material_with_features`
(material_scanner.py lines 261-272). -/
structure FMatch where
  x : ℤ
  y : ℤ
  width : ℤ
  height : ℤ
  confidence : ℚ
deriving DecidableEq

/-- Two centers within the fixed dedup radius: both coordinate
distances strictly below 30 pixels (material_scanner.py line 281). -/
def withinDedupRadius (a b : ℤ × ℤ) : Prop :=
  (a.1 - b.1).natAbs < 30 ∧ (a.2 - b.2).natAbs < 30

instance (a b : ℤ × ℤ) : Decidable (withinDedupRadius a b) := by
  unfold withinDedupRadius; infer_instance

/-- The duplicate test of the dedup loop (material_scanner.py line 281):
`abs(match.x - existing.x) < 30 and abs(match.y - existing.y) < 30`. -/
def closeMatch (m u : FMatch) : Bool :=
  decide (withinDedupRadius (m.x, m.y) (u.x, u.y))

/-- The dedup loop of `_find_material_with_features`
(material_scanner.py lines 277-285): walk the confidence-sorted list,
keeping a candidate only when no already-kept match is within the
dedup radius. -/
def dedupMatches (l : List FMatch) : List FMatch :=
  l.foldl (fun unique m => if unique.any fun u => closeMatch m u then unique
                           else unique ++ [m]) []

/-- Oracle environment for `_find_material_with_features`: the three
`cv2.matchTemplate` score grids (direct, Canny-edge, normalized
cross-correlation) over the card image, the result-grid dimensions,
the template dimensions and the display scale factor. -/
structure FeatEnv where
  resultW : ℕ
  resultH : ℕ
  scoreDirect : ℕ → ℕ → ℚ
  scoreEdge : ℕ → ℕ → ℚ
  scoreCcorr : ℕ → ℕ → ℚ
  templateW : ℕ
  templateH : ℕ
  scale : ℚ

/-- The combined score field (material_scanner.py lines 241-245):
per-pixel maximum of the direct score, the edge score weighted 0.7 and
the alternative correlation weighted 0.85. -/
def combinedScore (env : FeatEnv) (x y : ℕ) : ℚ :=
  max (env.scoreDirect y x)
    (max (env.scoreEdge y x * (7 / 10)) (env.scoreCcorr y x * (85 / 100)))

/-- The locations whose combined score reaches the 0.48 threshold, in
`np.where` row-major order (material_scanner.py lines 247, 255, 261). -/
def featPoints (env : FeatEnv) : List (ℕ × ℕ) :=
  ((List.range env.resultH).map fun y =>
    (List.range env.resultW).filterMap fun x =>
      if (48 : ℚ) / 100 ≤ combinedScore env x y then some (x, y) else none).flatten

/-- Embeds `_find_material_with_features` (material_scanner.py lines 208-289):
collect all points above the combined threshold, convert to absolute
logical coordinates, sort by descending confidence, deduplicate by the
fixed radius and keep at most five matches. -/
def findMaterialWithFeatures (env : FeatEnv) (offX offY : ℤ) : List FMatch :=
  let found : List FMatch := (featPoints env).map fun pt =>
    { x := pyInt (((offX + pt.1 : ℤ) : ℚ) / env.scale)
      y := pyInt (((offY + pt.2 : ℤ) : ℚ) / env.scale)
      width := pyInt ((env.templateW : ℚ) / env.scale)
      height := pyInt ((env.templateH : ℚ) / env.scale)
      confidence := combinedScore env pt.1 pt.2 }
  if found = [] then []
  else (dedupMatches (found.mergeSort fun a b => b.confidence ≤ a.confidence)).take 5

/-- Two kept matches are never within the dedup radius of each other. -/
def farApart (a b : FMatch) : Prop :=
  ¬ withinDedupRadius (a.x, a.y) (b.x, b.y)

theorem dedupMatches_aux (l : List FMatch) (acc : List FMatch)
    (hacc : acc.Pairwise farApart) :
    (l.foldl (fun unique m => if unique.any fun u => closeMatch m u then unique
                              else unique ++ [m]) acc).Pairwise farApart := by
  induction l generalizing acc with
  | nil => simpa using hacc
  | cons m rest ih =>
    simp only [List.foldl_cons]
    by_cases h : acc.any fun u => closeMatch m u
    · simpa [h] using ih acc hacc
    · have hall : ∀ u ∈ acc, closeMatch m u = false := by
        intro u hu
        by_contra hne
        exact h (List.any_eq_true.mpr ⟨u, hu, by simpa using hne⟩)
      have hpw : (acc ++ [m]).Pairwise farApart := by
        rw [List.pairwise_append]
        refine ⟨hacc, List.pairwise_singleton _ _, ?_⟩
        intro u hu b hb
        rcases List.mem_singleton.mp hb with rfl
        have hcm := hall u hu
        unfold closeMatch at hcm
        intro hcontra
        have : withinDedupRadius (b.x, b.y) (u.x, u.y) := by
          obtain ⟨h1, h2⟩ := hcontra
          exact ⟨by omega, by omega⟩
        simp [this] at hcm
      simpa [h] using ih (acc ++ [m]) hpw

theorem dedupMatches_pairwise (l : List FMatch) :
    (dedupMatches l).Pairwise farApart :=
  dedupMatches_aux l [] List.Pairwise.nil

/-! ## Claims C4, C5, C9 -/

/-- Environment for the C4 scenario: a scale-1 display (logical and
physical sizes agree), a region capture returning exactly the region's
size, and an 80x80 template on disk. -/
def c4Env : TMEnv :=
  { screenW := 1000, screenH := 1000, fullShotW := 1000, fullShotH := 1000
    captureDims := fun r =>
      match r with
      | some reg => (reg.w.toNat, reg.h.toNat)
      | none => (1000, 1000)
    templateDims := some (80, 80)
    peakVal := 1, peakLoc := (0, 0), grid := [] }

/-- C4: the spec says a search region strictly smaller than the
template makes `find_template_on_screen` return NotFound (`None`), and
in particular a 50x50 region with an 80x80 template yields NotFound.
The code has no size guard: it hands the 50x50 capture straight to
`cv2.matchTemplate`, which raises its size assertion, so the call
raises instead of returning `None`. -/
theorem C4_small_region_raises :
    findTemplateOnScreen c4Env (8 / 10) (some ⟨0, 0, 50, 50⟩) =
      Except.error CvErr.sizeAssert := by
  rfl

/-- Environment for the C5 counterexample: scale-1 display, a 12x10
capture, a 10x10 template, and a score grid with two horizontally
adjacent locations above the threshold. -/
def c5Env : TMEnv :=
  { screenW := 100, screenH := 100, fullShotW := 100, fullShotH := 100
    captureDims := fun _ => (12, 10)
    templateDims := some (10, 10)
    peakVal := 9 / 10, peakLoc := (0, 0)
    grid := [[9 / 10, 9 / 10, 0]] }

/-- C5 counterexample: `find_all_matches` performs no deduplication, so
two adjacent above-threshold locations yield two matches whose centers
(5,5) and (6,5) lie well within the fixed 30-pixel dedup radius of
each other. -/
theorem C5_counterexample :
    (findAllMatches c5Env (8 / 10) none).toOption.map (List.map fun m => (m.x, m.y)) =
        some [(5, 5), (6, 5)] ∧
      withinDedupRadius (5, 5) (6, 5) := by
  constructor
  · norm_num [findAllMatches, matchTemplateCheck, c5Env, whereAtLeast, TMEnv.scale,
      getScaleFactor, toLogical, pyInt, List.enum, List.enumFrom, List.filterMap_cons,
      Except.toOption]
  · decide

/-- C5 amended: the dedup radius invariant does hold of the list
returned by `MaterialScanner._find_material_with_features` (which
sorts by descending confidence, suppresses any candidate within the
radius of an already-kept one and caps the result at five): no two
returned matches are within the dedup radius of each other. -/
theorem C5_feature_matches_deduped (env : FeatEnv) (offX offY : ℤ) :
    (findMaterialWithFeatures env offX offY).Pairwise farApart := by
  unfold findMaterialWithFeatures
  set found : List FMatch := (featPoints env).map fun pt =>
    { x := pyInt (((offX + pt.1 : ℤ) : ℚ) / env.scale)
      y := pyInt (((offY + pt.2 : ℤ) : ℚ) / env.scale)
      width := pyInt ((env.templateW : ℚ) / env.scale)
      height := pyInt ((env.templateH : ℚ) / env.scale)
      confidence := combinedScore env pt.1 pt.2 } with hfound
  by_cases h : found = []
  · simp [h]
  · simp only [h, if_false]
    exact List.Pairwise.sublist (List.take_sublist 5 _)
      (dedupMatches_pairwise _)

/-- C9: converting a non-negative logical coordinate to physical space
(`int(p * scale_factor)`) and back (`int(q / scale_factor)`), with the
scale factor computed by `get_scale_factor` as the mean of the width
and height ratios and assumed at least 1, lands within one pixel of
the original coordinate. -/
theorem C9_roundtrip_within_one_pixel (p sw sh cw ch : ℕ)
    (hs : 1 ≤ getScaleFactor sw sh cw ch) :
    (toLogical (toPhysical p (getScaleFactor sw sh cw ch))
        (getScaleFactor sw sh cw ch) - p).natAbs ≤ 1 := by
  set s : ℚ := getScaleFactor sw sh cw ch with hsdef
  have hs0 : 0 < s := lt_of_lt_of_le one_pos hs
  have hps : (0 : ℚ) ≤ (p : ℚ) * s :=
    mul_nonneg (Nat.cast_nonneg p) (le_of_lt hs0)
  have hphys : toPhysical p s = ⌊(p : ℚ) * s⌋ := by
    simp [toPhysical, pyInt, hps]
  set q : ℤ := ⌊(p : ℚ) * s⌋ with hqdef
  have hq0 : (0 : ℤ) ≤ q := Int.floor_nonneg.mpr hps
  have hqs : (0 : ℚ) ≤ (q : ℚ) / s :=
    div_nonneg (by exact_mod_cast hq0) (le_of_lt hs0)
  have hlog : toLogical q s = ⌊(q : ℚ) / s⌋ := by
    simp [toLogical, pyInt, hqs]
  have hupper : ⌊(q : ℚ) / s⌋ ≤ (p : ℤ) := by
    have h1 : (q : ℚ) ≤ (p : ℚ) * s := Int.floor_le _
    have h2 : (q : ℚ) / s ≤ (p : ℚ) := by
      rw [div_le_iff₀ hs0]
      exact h1
    calc ⌊(q : ℚ) / s⌋ ≤ ⌊(p : ℚ)⌋ := Int.floor_le_floor h2
      _ = (p : ℤ) := Int.floor_natCast p
  have hlower : (p : ℤ) - 1 ≤ ⌊(q : ℚ) / s⌋ := by
    rw [Int.le_floor]
    have h1 : (p : ℚ) * s - 1 ≤ (q : ℚ) := by
      have := Int.lt_floor_add_one ((p : ℚ) * s)
      linarith
    have h3 : ((p : ℚ) * s - 1) / s ≤ (q : ℚ) / s := by
      gcongr
    have h4 : ((p : ℚ) * s - 1) / s = (p : ℚ) - 1 / s := by
      field_simp
    have hinv : 1 / s ≤ 1 := by
      rw [div_le_one hs0]
      exact hs
    push_cast
    rw [h4] at h3
    linarith
  rw [hphys, hlog]
  omega

/-- Witness for C9 at scale factor 2 (logical 100x100, capture
200x200) and p = 7. -/
theorem C9_roundtrip_witness :
    1 ≤ getScaleFactor 100 100 200 200 ∧
      (toLogical (toPhysical 7 (getScaleFactor 100 100 200 200))
          (getScaleFactor 100 100 200 200) - 7).natAbs ≤ 1 :=
  ⟨by norm_num [getScaleFactor],
   C9_roundtrip_within_one_pixel 7 100 100 200 200 (by norm_num [getScaleFactor])⟩

/-! ## src/src/core/train_dispatcher.py -/

/-- Python `str.split()` with no separator: the maximal whitespace-free
words, in order (empty runs dropped). -/
def wordsOf : List Char → List Char → List (List Char)
  | [], acc => if acc.isEmpty then [] else [acc.reverse]
  | c :: cs, acc =>
    if c.isWhitespace then
      if acc.isEmpty then wordsOf cs [] else acc.reverse :: wordsOf cs []
    else wordsOf cs (c :: acc)

/-- Python `' '.join(words)`. -/
def spaceJoin : List (List Char) → List Char
  | [] => []
  | [w] => w
  | w :: ws => w ++ ' ' :: spaceJoin ws

/-- Embeds `' '.join(s.upper().split())`: uppercase, split on whitespace runs,
rejoin with single spaces (train_dispatcher.py lines 50-51; the texts
involved are ASCII, where Python `str.upper` agrees with
`Char.toUpper`). -/
def normalizeText (s : String) : String :=
  String.mk (spaceJoin (wordsOf (s.toList.map Char.toUpper) []))

/-- Does `needle` start `hay`? Helper for the substring test. -/
def charsStartWith : List Char → List Char → Bool
  | [], _ => true
  | _ :: _, [] => false
  | c :: cs, d :: ds => c = d && charsStartWith cs ds

/-- Does `needle` occur contiguously in `hay`? -/
def charsContain (needle : List Char) : List Char → Bool
  | [] => needle.isEmpty
  | d :: ds => charsStartWith needle (d :: ds) || charsContain needle ds

/-- Python's `needle in hay` substring test on strings. -/
def strContains (hay needle : String) : Bool :=
  charsContain needle.toList hay.toList

/-- Constant `TRAIN_STATUS_MATCH_THRESHOLD` (detection_config.py line 105). -/
def TRAIN_STATUS_MATCH_THRESHOLD : ℚ := 70 / 100

/-- Embeds `TrainDispatcher._fuzzy_text_match` (train_dispatcher.py lines
33-61): reject empty inputs, normalize both strings, accept a literal
substring, otherwise accept when the `SequenceMatcher` ratio (supplied
by the `sim` oracle, since `difflib` is external) reaches the
threshold. -/
def fuzzyTextMatch (sim : String → String → ℚ) (text target : String)
    (threshold : ℚ) : Bool :=
  if text = "" ∨ target = "" then false
  else
    let ntext := normalizeText text
    let ntarget := normalizeText target
    let r := sim ntext ntarget
    if strContains ntext ntarget then true
    else decide (threshold ≤ r)

/-- Oracle environment for `TrainDispatcher`: the OCR text read from
the status region, the `SequenceMatcher` ratio oracle, the three
template lookups (AlltrainsUsed, DispatchButton, TaskCompleting) and
the effect of clicks and ESC presses on the abstract screen state. -/
structure TrainEnv (σ : Type) where
  screenW : ℕ
  screenH : ℕ
  statusText : σ → String
  similarity : String → String → ℚ
  allTrainsUsedTpl : σ → Option Pos
  dispatchButtonTpl : σ → Option Pos
  taskCompletingTpl : σ → Option Pos
  click : σ → ℤ → ℤ → σ
  escTap : σ → σ

/-- Embeds `check_trains_available_by_text` (train_dispatcher.py lines
117-145): empty text is "not available"; `TAP THE TRAIN TO` means
available; `PLEASE WAIT UNTIL` means used; anything unclear is
"not available". -/
def checkTrainsAvailableByText (env : TrainEnv σ) (s : σ) : Bool :=
  let text := env.statusText s
  if text = "" then false
  else if fuzzyTextMatch env.similarity text "TAP THE TRAIN TO"
      TRAIN_STATUS_MATCH_THRESHOLD then true
  else if fuzzyTextMatch env.similarity text "PLEASE WAIT UNTIL"
      TRAIN_STATUS_MATCH_THRESHOLD then false
  else false

/-- Embeds `check_all_trains_used` (train_dispatcher.py lines 159-212): empty
text falls back to the AlltrainsUsed template; `PLEASE WAIT UNTIL`
means all used; `TAP THE TRAIN TO` means still available; unclear text
is treated as "trains available" (returns `false`).  The mouse moves
to the safe position are not modelled (they are not clicks). -/
def checkAllTrainsUsed (env : TrainEnv σ) (s : σ) : Bool :=
  let text := env.statusText s
  if text = "" then
    match env.allTrainsUsedTpl s with
    | some _ => true
    | none => false
  else if fuzzyTextMatch env.similarity text "PLEASE WAIT UNTIL"
      TRAIN_STATUS_MATCH_THRESHOLD then true
  else if fuzzyTextMatch env.similarity text "TAP THE TRAIN TO"
      TRAIN_STATUS_MATCH_THRESHOLD then false
  else false

/-- Pointer/keyboard events issued by the dispatch loop, tagged by the
click site in the source: the train click (line 304), the dispatch
button click (line 242) and the ESC presses (lines 354-357). -/
inductive TEvent where
  | trainClick (x y : ℤ)
  | dispatchClick (x y : ℤ)
  | escPress
deriving DecidableEq

/-- The 3-attempt loop of `dispatch_train` (train_dispatcher.py lines
237-248): find the Dispatch button and click it, retrying up to three
times. -/
def dispatchTrainLoop (env : TrainEnv σ) : ℕ → σ → σ × Bool × List TEvent
  | 0, s => (s, false, [])
  | n + 1, s =>
    match env.dispatchButtonTpl s with
    | some p => (env.click s p.x p.y, true, [TEvent.dispatchClick p.x p.y])
    | none => dispatchTrainLoop env n s

/-- Embeds `dispatch_train` (train_dispatcher.py lines 228-251). -/
def dispatchTrain (env : TrainEnv σ) (s : σ) : σ × Bool × List TEvent :=
  dispatchTrainLoop env 3 s

/-- Embeds `check_task_complete` (train_dispatcher.py lines 253-270). -/
def checkTaskComplete (env : TrainEnv σ) (s : σ) : Bool :=
  (env.taskCompletingTpl s).isSome

/-- The `for i in range(max_dispatches)` body of
`dispatch_trains_for_task` (train_dispatcher.py lines 289-344): click
the (fixed) train position, stop if all trains are used, otherwise try
the dispatch button; on success re-check the two stop conditions, on
failure check them and stop either way. -/
def dispatchLoop (env : TrainEnv σ) : ℕ → σ → ℤ → ℤ → ℕ → σ × ℕ × List TEvent
  | 0, s, _, _, count => (s, count, [])
  | n + 1, s, tx, ty, count =>
    let s := env.click s tx ty
    let ev0 := [TEvent.trainClick tx ty]
    if checkAllTrainsUsed env s then (s, count, ev0)
    else
      match dispatchTrain env s with
      | (s, true, ev1) =>
        let count := count + 1
        if checkAllTrainsUsed env s then (s, count, ev0 ++ ev1)
        else if checkTaskComplete env s then (s, count, ev0 ++ ev1)
        else
          match dispatchLoop env n s tx ty count with
          | (s, c, ev2) => (s, c, ev0 ++ ev1 ++ ev2)
      | (s, false, ev1) => (s, count, ev0 ++ ev1)

/-- Embeds `dispatch_trains_for_task` (train_dispatcher.py lines 272-361):
compute the fixed train position, run up to `max_dispatches = 10` loop
iterations, and if at least one train was dispatched press ESC twice;
returns whether at least one dispatch succeeded. -/
def dispatchTrainsForTask (env : TrainEnv σ) (s : σ) : σ × Bool × List TEvent :=
  let tx : ℤ := pyInt ((env.screenW : ℚ) / 6)
  let ty : ℤ := pyInt ((env.screenH : ℚ) * (85 / 100))
  match dispatchLoop env 10 s tx ty 0 with
  | (s, count, evs) =>
    if 0 < count then
      (env.escTap (env.escTap s), true, evs ++ [TEvent.escPress, TEvent.escPress])
    else (s, false, evs)

/-! ## Claims C2 and C8 -/

/-- A static screen for the dispatcher: constant status text `t`,
ratio oracle `sim`, a Dispatch button at (500, 500), no AlltrainsUsed
or TaskCompleting template, and clicks that do not change the
screen. -/
def c2StaticEnv (sim : String → String → ℚ) (t : String) : TrainEnv Unit :=
  { screenW := 1200, screenH := 1000
    statusText := fun _ => t
    similarity := sim
    allTrainsUsedTpl := fun _ => none
    dispatchButtonTpl := fun _ => some ⟨500, 500⟩
    taskCompletingTpl := fun _ => none
    click := fun s _ _ => s
    escTap := fun s => s }

/-- C2 counterexample: with OCR text "ABC 123" (similarity 0 to both
phrases, no substring) neither candidate phrase matches at the 0.70
threshold, yet `check_all_trains_used` reports `false` ("trains
available") and `dispatch_trains_for_task` goes on to click the
Dispatch button at (500, 500) — the unclear case does consume the
resource. -/
theorem C2_counterexample :
    fuzzyTextMatch (fun _ _ => 0) "ABC 123" "TAP THE TRAIN TO"
        TRAIN_STATUS_MATCH_THRESHOLD = false ∧
      fuzzyTextMatch (fun _ _ => 0) "ABC 123" "PLEASE WAIT UNTIL"
        TRAIN_STATUS_MATCH_THRESHOLD = false ∧
      checkAllTrainsUsed (c2StaticEnv (fun _ _ => 0) "ABC 123") () = false ∧
      TEvent.dispatchClick 500 500 ∈
        (dispatchTrainsForTask (c2StaticEnv (fun _ _ => 0) "ABC 123") ()).2.2 := by
  have hthr : ¬ (TRAIN_STATUS_MATCH_THRESHOLD ≤ (0 : ℚ)) := by
    norm_num [TRAIN_STATUS_MATCH_THRESHOLD]
  have hsub1 : strContains (normalizeText "ABC 123")
      (normalizeText "TAP THE TRAIN TO") = false := by rfl
  have hsub2 : strContains (normalizeText "ABC 123")
      (normalizeText "PLEASE WAIT UNTIL") = false := by rfl
  have hguard1 : ¬ ("ABC 123" = "" ∨ "TAP THE TRAIN TO" = "") := by decide
  have hguard2 : ¬ ("ABC 123" = "" ∨ "PLEASE WAIT UNTIL" = "") := by decide
  have hf1 : fuzzyTextMatch (fun _ _ => 0) "ABC 123" "TAP THE TRAIN TO"
      TRAIN_STATUS_MATCH_THRESHOLD = false := by
    simp [fuzzyTextMatch, hguard1, hsub1, hthr]
  have hf2 : fuzzyTextMatch (fun _ _ => 0) "ABC 123" "PLEASE WAIT UNTIL"
      TRAIN_STATUS_MATCH_THRESHOLD = false := by
    simp [fuzzyTextMatch, hguard2, hsub2, hthr]
  have hne : ¬ ("ABC 123" = "") := by decide
  have hcheck : checkAllTrainsUsed (c2StaticEnv (fun _ _ => 0) "ABC 123") () = false := by
    simp [checkAllTrainsUsed, c2StaticEnv, hne, hf1, hf2]
  refine ⟨hf1, hf2, hcheck, ?_⟩
  have hbtn : ∀ s : Unit, (c2StaticEnv (fun _ _ => 0) "ABC 123").dispatchButtonTpl s =
      some ⟨500, 500⟩ := fun _ => rfl
  have htc : ∀ s : Unit, (c2StaticEnv (fun _ _ => 0) "ABC 123").taskCompletingTpl s =
      none := fun _ => rfl
  simp [dispatchTrainsForTask, dispatchLoop, dispatchTrain, dispatchTrainLoop,
    checkTaskComplete, hcheck, hbtn, htc]

/-- C2 amended: on a non-empty OCR text that matches neither phrase at
the threshold, `check_trains_available_by_text` does return the
conservative `false` ("not available"), but `check_all_trains_used`
also returns `false` — which for that reader means "trains still
available" — and the dispatch loop therefore proceeds to click the
Dispatch button whenever one is on screen. -/
theorem C2_unclear_proceeds_to_dispatch (sim : String → String → ℚ) (t : String)
    (hne : t ≠ "")
    (h1 : fuzzyTextMatch sim t "TAP THE TRAIN TO" TRAIN_STATUS_MATCH_THRESHOLD = false)
    (h2 : fuzzyTextMatch sim t "PLEASE WAIT UNTIL" TRAIN_STATUS_MATCH_THRESHOLD = false) :
    checkTrainsAvailableByText (c2StaticEnv sim t) () = false ∧
      checkAllTrainsUsed (c2StaticEnv sim t) () = false ∧
      TEvent.dispatchClick 500 500 ∈
        (dispatchTrainsForTask (c2StaticEnv sim t) ()).2.2 := by
  have hcheck : checkAllTrainsUsed (c2StaticEnv sim t) () = false := by
    simp [checkAllTrainsUsed, c2StaticEnv, hne, h1, h2]
  refine ⟨?_, hcheck, ?_⟩
  · simp [checkTrainsAvailableByText, c2StaticEnv, hne, h1, h2]
  · have hbtn : ∀ s : Unit, (c2StaticEnv sim t).dispatchButtonTpl s =
        some ⟨500, 500⟩ := fun _ => rfl
    have htc : ∀ s : Unit, (c2StaticEnv sim t).taskCompletingTpl s = none := fun _ => rfl
    simp [dispatchTrainsForTask, dispatchLoop, dispatchTrain, dispatchTrainLoop,
      checkTaskComplete, hcheck, hbtn, htc]

/-- Witness for C2 amended at ratio oracle 0 and text "XYZ". -/
theorem C2_unclear_witness :
    ("XYZ" : String) ≠ "" ∧
      fuzzyTextMatch (fun _ _ => 0) "XYZ" "TAP THE TRAIN TO"
        TRAIN_STATUS_MATCH_THRESHOLD = false ∧
      fuzzyTextMatch (fun _ _ => 0) "XYZ" "PLEASE WAIT UNTIL"
        TRAIN_STATUS_MATCH_THRESHOLD = false ∧
      (checkTrainsAvailableByText (c2StaticEnv (fun _ _ => 0) "XYZ") () = false ∧
        checkAllTrainsUsed (c2StaticEnv (fun _ _ => 0) "XYZ") () = false ∧
        TEvent.dispatchClick 500 500 ∈
          (dispatchTrainsForTask (c2StaticEnv (fun _ _ => 0) "XYZ") ()).2.2) := by
  have hne : ("XYZ" : String) ≠ "" := by decide
  have h1 : fuzzyTextMatch (fun _ _ => 0) "XYZ" "TAP THE TRAIN TO"
      TRAIN_STATUS_MATCH_THRESHOLD = false := by
    have hsub : strContains (normalizeText "XYZ")
        (normalizeText "TAP THE TRAIN TO") = false := by rfl
    simp [fuzzyTextMatch, hsub]
    norm_num [TRAIN_STATUS_MATCH_THRESHOLD]
  have h2 : fuzzyTextMatch (fun _ _ => 0) "XYZ" "PLEASE WAIT UNTIL"
      TRAIN_STATUS_MATCH_THRESHOLD = false := by
    have hsub : strContains (normalizeText "XYZ")
        (normalizeText "PLEASE WAIT UNTIL") = false := by rfl
    simp [fuzzyTextMatch, hsub]
    norm_num [TRAIN_STATUS_MATCH_THRESHOLD]
  exact ⟨hne, h1, h2, C2_unclear_proceeds_to_dispatch (fun _ _ => 0) "XYZ" hne h1 h2⟩

/-- C8 counterexample: the claim's acceptance criterion ("accept iff
the candidate is a literal substring of the text or the ratio reaches
the threshold") fails at an empty candidate: the empty string is a
literal substring of "ABC", yet `_fuzzy_text_match` rejects the pair
outright because of its empty-input guard. -/
theorem C8_counterexample :
    fuzzyTextMatch (fun _ _ => 0) "ABC" "" TRAIN_STATUS_MATCH_THRESHOLD = false ∧
      strContains (normalizeText "ABC") (normalizeText "") = true :=
  ⟨rfl, rfl⟩

/-- C8 amended: provided both the raw text and the raw candidate are
non-empty (the guard rejects empty inputs before normalizing), the
reader uppercases and collapses whitespace in both and accepts exactly
when the candidate is a literal substring of the text or the ratio
reaches the threshold; the spec's scenario — "TAP THE TRAIN TO
DISPATCH" against "TAP THE TRAIN TO" at the 0.70 configured threshold
— is accepted (substring branch) for every ratio oracle. -/
theorem C8_accept_iff (sim : String → String → ℚ) (text target : String) (th : ℚ)
    (htext : text ≠ "") (htarget : target ≠ "") :
    (fuzzyTextMatch sim text target th = true ↔
      strContains (normalizeText text) (normalizeText target) = true ∨
        th ≤ sim (normalizeText text) (normalizeText target)) ∧
      fuzzyTextMatch sim "TAP THE TRAIN TO DISPATCH" "TAP THE TRAIN TO"
        TRAIN_STATUS_MATCH_THRESHOLD = true := by
  constructor
  · unfold fuzzyTextMatch
    have hguard : ¬ (text = "" ∨ target = "") := by
      intro h
      rcases h with h | h
      · exact htext h
      · exact htarget h
    simp only [hguard, if_false]
    by_cases hsub : strContains (normalizeText text) (normalizeText target) = true
    · simp [hsub]
    · simp only [Bool.not_eq_true] at hsub
      simp [hsub, decide_eq_true_iff]
  · unfold fuzzyTextMatch
    have hguard : ¬ (("TAP THE TRAIN TO DISPATCH" : String) = "" ∨
        ("TAP THE TRAIN TO" : String) = "") := by decide
    have hsub : strContains (normalizeText "TAP THE TRAIN TO DISPATCH")
        (normalizeText "TAP THE TRAIN TO") = true := by rfl
    simp [hguard, hsub]

/-- Witness for C8 amended at ratio oracle 0, text "A", candidate "B"
and threshold 1. -/
theorem C8_accept_iff_witness :
    ("A" : String) ≠ "" ∧ ("B" : String) ≠ "" ∧
      ((fuzzyTextMatch (fun _ _ => 0) "A" "B" 1 = true ↔
        strContains (normalizeText "A") (normalizeText "B") = true ∨
          (1 : ℚ) ≤ (fun _ _ => (0 : ℚ)) (normalizeText "A") (normalizeText "B")) ∧
        fuzzyTextMatch (fun _ _ => 0) "TAP THE TRAIN TO DISPATCH" "TAP THE TRAIN TO"
          TRAIN_STATUS_MATCH_THRESHOLD = true) :=
  ⟨by decide, by decide, C8_accept_iff (fun _ _ => 0) "A" "B" 1 (by decide) (by decide)⟩

/-! ## src/src/core/factory_automation.py -/

/-- Maximal digit prefix of a character list and the remainder. -/
def takeDigits : List Char → List Char × List Char
  | [] => ([], [])
  | c :: cs =>
    if c.isDigit then
      match takeDigits cs with
      | (ds, rest) => (c :: ds, rest)
    else ([], c :: cs)

/-- Drop a maximal whitespace prefix. -/
def dropSpaces : List Char → List Char
  | [] => []
  | c :: cs => if c.isWhitespace then dropSpaces cs else c :: cs

/-- Numeric value of a digit string (Python `int`). -/
def natOfDigits (ds : List Char) : ℕ :=
  ds.foldl (fun n c => 10 * n + (c.toNat - 48)) 0

/-- Match the regular expression `(\d+)\s*/\s*(\d+)` anchored at the
head of the list. -/
def slashPairAt (cs : List Char) : Option (ℕ × ℕ) :=
  match takeDigits cs with
  | ([], _) => none
  | (ds, rest) =>
    match dropSpaces rest with
    | '/' :: rest2 =>
      (match takeDigits (dropSpaces rest2) with
       | ([], _) => none
       | (ds2, _) => some (natOfDigits ds, natOfDigits ds2))
    | _ => none

/-- Embeds `re.search` for the pattern digits, optional spaces, a slash, optional spaces, digits: the leftmost match. -/
def searchSlashPair : List Char → Option (ℕ × ℕ)
  | [] => none
  | c :: cs =>
    match slashPairAt (c :: cs) with
    | some p => some p
    | none => searchSlashPair cs

/-- Python `str.strip()`. -/
def pyStrip (s : String) : String :=
  String.mk (((s.toList.dropWhile Char.isWhitespace).reverse.dropWhile
    Char.isWhitespace).reverse)

/-- Embeds `FactoryAutomation._needs_material` (factory_automation.py lines
528-557): strip the text, search for an `X/Y` pair, and report a
deficit exactly when `current < required`; unparsable text is not a
deficit. -/
def needsMaterial (text : String) : Bool :=
  match searchSlashPair (pyStrip text).toList with
  | none => false
  | some (current, required) => decide (current < required)

/-- A text box produced by `detect_text_in_region` (factory_automation.py
lines 396-405): region-relative coordinates. -/
structure ScanBox where
  text : String
  x : ℤ
  y : ℤ
  width : ℤ
  height : ℤ
deriving DecidableEq

/-- A missing-material entry of `craft_material_dfs`
(factory_automation.py lines 701-705). -/
structure Dep where
  text : String
  clickX : ℤ
  clickY : ℤ
deriving DecidableEq

/-- Oracle environment for `FactoryAutomation`: the effect of clicks
and ESC on the abstract game screen, the blue-button / confirm-button
template lookups, the requirements-region search, the OCR text-box
reader (`detect_text_in_region`, whose `pytesseract` core is external)
and the "Not Enough Materials" popup test. -/
structure FactoryEnv (σ : Type) where
  click : σ → ℤ → ℤ → σ
  escKey : σ → σ
  blueButton : σ → Option Pos
  confirmButton : σ → Option Pos
  reqRegion : σ → Option Region
  detectText : σ → Region → List ScanBox
  popup : σ → Bool

/-- The missing-material list built from a scan
(factory_automation.py lines 691-705, repeated at 786-799): a box is
missing when `_needs_material` holds; the click target is the box
center in screen coordinates, 50 px above the text. -/
def missingOf (reg : Region) (mats : List ScanBox) : List Dep :=
  mats.filterMap fun mat =>
    if needsMaterial mat.text then
      let screenX := reg.x + mat.x + mat.width.fdiv 2
      let screenY := reg.y + mat.y + mat.height.fdiv 2
      some ⟨mat.text, screenX, screenY - 50⟩
    else none

/-- A pending call of the recursive resolver: either a
`craft_material_dfs` invocation or the dependency loop over a list of
missing materials (the loop at factory_automation.py lines 715-755,
whose navigate-back tail is identical in its two branches, and the
retry loop at lines 805-822, which always navigates back). -/
inductive CraftCall (σ : Type) where
  | dfs (cx cy : ℤ) (depth : ℕ) (s : σ)
  | deps (cx cy : ℤ) (depth : ℕ) (s : σ) (pending : List Dep)

/-- Embeds `craft_material_dfs` (factory_automation.py lines 627-840), run on
`fuel` steps so the embedding is total (`none` = the model ran out of
fuel; the Python function has no depth bound and need not terminate).
The returned list records the `depth` argument of every
`craft_material_dfs` invocation entered, matching the source's own
`DFS Depth {depth}` log line (line 648).  Control flow: navigate
(material click, blue button, confirm wait), scan requirements,
recursively resolve each missing material (navigating back after each
child), click confirm, and on the "Not Enough Materials" popup press
ESC, re-scan, resolve the newly found deficits (failing when there are
none) and click confirm once more — without re-checking the popup
afterwards; finally ESC when `depth > 0`. -/
def craftRun (env : FactoryEnv σ) : ℕ → CraftCall σ → Option (σ × Bool × List ℕ)
  | 0, _ => none
  | fuel + 1, CraftCall.dfs cx cy depth s =>
    let s := env.click s cx cy
    match env.blueButton s with
    | none => some (s, false, [depth])
    | some pb =>
      let s := env.click s pb.x pb.y
      match env.confirmButton s with
      | none => some (s, false, [depth])
      | some pc =>
        match env.reqRegion s with
        | none => some (s, false, [depth])
        | some reg =>
          let missing := missingOf reg (env.detectText s reg)
          match craftRun env fuel (CraftCall.deps cx cy depth s missing) with
          | none => none
          | some (s, false, tr) => some (s, false, depth :: tr)
          | some (s, true, tr) =>
            let s := env.click s pc.x pc.y
            if env.popup s then
              let s := env.escKey s
              match env.reqRegion s with
              | none => some (s, false, depth :: tr)
              | some reg2 =>
                let missing2 := missingOf reg2 (env.detectText s reg2)
                if missing2.isEmpty then some (s, false, depth :: tr)
                else
                  match craftRun env fuel (CraftCall.deps cx cy depth s missing2) with
                  | none => none
                  | some (s, false, tr2) => some (s, false, depth :: (tr ++ tr2))
                  | some (s, true, tr2) =>
                    let s := env.click s pc.x pc.y
                    let s := if 0 < depth then env.escKey s else s
                    some (s, true, depth :: (tr ++ tr2))
            else
              let s := if 0 < depth then env.escKey s else s
              some (s, true, depth :: tr)
  | _ + 1, CraftCall.deps _ _ _ s [] => some (s, true, [])
  | fuel + 1, CraftCall.deps cx cy depth s (dep :: rest) =>
    match craftRun env fuel (CraftCall.dfs dep.clickX dep.clickY (depth + 1) s) with
    | none => none
    | some (s, false, tr) => some (s, false, tr)
    | some (s, true, tr) =>
      let s := env.click s cx cy
      match env.blueButton s with
      | none => some (s, false, tr)
      | some pb =>
        let s := env.click s pb.x pb.y
        match env.confirmButton s with
        | none => some (s, false, tr)
        | some _ =>
          match craftRun env fuel (CraftCall.deps cx cy depth s rest) with
          | none => none
          | some (s, b, tr2) => some (s, b, tr ++ tr2)

/-- Entry point of the resolver: one `craft_material_dfs` call. -/
def craftMaterialDfs (env : FactoryEnv σ) (fuel : ℕ) (cx cy : ℤ) (depth : ℕ)
    (s : σ) : Option (σ × Bool × List ℕ) :=
  craftRun env fuel (CraftCall.dfs cx cy depth s)

/-! ## src/crafting_tree_navigator.py -/

/-- Oracle environment for `CraftingTreeNavigator`: the red-resource
matches on the current screen, the X-button lookup and click
effects. -/
structure NavEnv (σ : Type) where
  findMissing : σ → List Pos
  xButton : σ → Option Pos
  click : σ → ℤ → ℤ → σ

/-- Embeds `go_back` (crafting_tree_navigator.py lines 49-61). -/
def goBack (env : NavEnv σ) (s : σ) : σ × Bool :=
  match env.xButton s with
  | some p => (env.click s p.x p.y, true)
  | none => (s, false)

/-- A pending call of the recipe-tree exploration: the recursive
`explore_recipe_tree` body or its `for resource in missing_resources`
loop (crafting_tree_navigator.py lines 101-116). -/
inductive NavCall (σ : Type) where
  | tree (curDepth : ℕ) (s : σ) (stack : List Pos)
  | loop (curDepth : ℕ) (s : σ) (stack : List Pos) (pending : List Pos)

/-- Embeds `explore_recipe_tree` (crafting_tree_navigator.py lines 75-118),
run on `fuel` steps so the embedding is total (`none` = out of fuel):
return immediately once `current_depth >= max_depth` (the Python
default is `max_depth = 10`), otherwise click into each missing
resource, push it on the recipe stack, recurse, and go back up
(popping the stack), breaking off when the X button is missing.  The
Python function always returns `None`; the result here is the final
screen state and recipe stack. -/
def navRun (env : NavEnv σ) (maxDepth : ℕ) : ℕ → NavCall σ → Option (σ × List Pos)
  | 0, _ => none
  | fuel + 1, NavCall.tree cd s stack =>
    if maxDepth ≤ cd then some (s, stack)
    else
      let missing := env.findMissing s
      if missing.isEmpty then some (s, stack)
      else navRun env maxDepth fuel (NavCall.loop cd s stack missing)
  | _ + 1, NavCall.loop _ s stack [] => some (s, stack)
  | fuel + 1, NavCall.loop cd s stack (r :: rest) =>
    let s := env.click s r.x r.y
    let stack := stack ++ [r]
    match navRun env maxDepth fuel (NavCall.tree (cd + 1) s stack) with
    | none => none
    | some (s, stack) =>
      match goBack env s with
      | (s, true) => navRun env maxDepth fuel (NavCall.loop cd s stack.dropLast rest)
      | (s, false) => some (s, stack)

/-- Entry point of the explorer: one `explore_recipe_tree` call. -/
def exploreRecipeTree (env : NavEnv σ) (maxDepth curDepth fuel : ℕ) (s : σ)
    (stack : List Pos) : Option (σ × List Pos) :=
  navRun env maxDepth fuel (NavCall.tree curDepth s stack)

/-! ## Claims C3 and C6 -/

/-- A dependency chain of length `n`: the abstract screen state is the
index of the material currently open; material `i` sits at position
`(i, 0)` (clicks with `y = 0` open that material, other clicks leave
the screen), the blue button and confirm button are always present at
`(0, 5)` and `(0, 9)`, and the factory of material `i < n` shows one
missing requirement `0/1` whose computed click target is material
`i + 1`; material `n` has none.  No popup ever appears. -/
def chainEnv (n : ℕ) : FactoryEnv ℕ :=
  { click := fun s x y => if y = 0 then x.toNat else s
    escKey := fun s => s
    blueButton := fun _ => some ⟨0, 5⟩
    confirmButton := fun _ => some ⟨0, 9⟩
    reqRegion := fun _ => some ⟨0, 0, 100, 100⟩
    detectText := fun s _ => if s < n then [⟨"0/1", ((s + 1 : ℕ) : ℤ), 50, 0, 0⟩] else []
    popup := fun _ => false }

/-- C3 counterexample: on a 7-deep dependency chain the resolver
recurses through depths 0..7 and succeeds.  Under the claim (depth
bounded by 5, the branch at the bound returning failure) the depth-6
branch would have failed and — since `craft_material_dfs` propagates a
child's failure (`if not ...: return False`) — the whole call would
have returned failure; instead the deepest branch is entered and
crafted. -/
theorem C3_counterexample :
    craftMaterialDfs (chainEnv 7) 100 0 0 0 0 =
      some (0, true, [0, 1, 2, 3, 4, 5, 6, 7]) := by
  decide

/-- A trivial explorer screen with nothing to find. -/
def navEnvW : NavEnv Unit :=
  { findMissing := fun _ => []
    xButton := fun _ => none
    click := fun s _ _ => s }

/-- C3 amended: the dependency resolver `craft_material_dfs` has no
depth bound at all (its `depth` argument is only used for logging and
the final ESC), so a 12-deep chain — deeper than any configured bound
— is recursed end to end and crafted; the only depth-bounded recursion
in the repository is the separate `CraftingTreeNavigator.
explore_recipe_tree`, whose default bound is 10 (not 5) and which
returns immediately (no exception, value `None`) whenever
`current_depth >= max_depth`. -/
theorem C3_resolver_unbounded :
    (∀ (σ : Type) (env : NavEnv σ) (md cd fuel : ℕ) (s : σ) (stack : List Pos),
        md ≤ cd → exploreRecipeTree env md cd (fuel + 1) s stack = some (s, stack)) ∧
      craftMaterialDfs (chainEnv 12) 100 0 0 0 0 =
        some (0, true, [0, 1, 2, 3, 4, 5, 6, 7, 8, 9, 10, 11, 12]) := by
  constructor
  · intro σ env md cd fuel s stack h
    simp [exploreRecipeTree, navRun, h]
  · decide

/-- Witness for C3 amended at `max_depth = current_depth = 10`. -/
theorem C3_resolver_unbounded_witness :
    10 ≤ 10 ∧ exploreRecipeTree navEnvW 10 10 1 () [] = some ((), []) :=
  ⟨by decide, C3_resolver_unbounded.1 Unit navEnvW 10 10 0 () [] (by decide)⟩

/-- The screen for the C6 scenario, with the state counting the input
events so far (each click or ESC advances it by one).  The run: scan
clean (state 2), confirm (state 3) pops the "Not Enough Materials"
popup, ESC (state 4), the re-scan finds one `2/5` deficit, the child
craft succeeds (states 5-8), navigate back (states 9-10), retry
confirm (state 11) — and the popup at state 11 is `b`, which the code
never reads. -/
def envC6 (b : Bool) : FactoryEnv ℕ :=
  { click := fun s _ _ => s + 1
    escKey := fun s => s + 1
    blueButton := fun _ => some ⟨999, 5⟩
    confirmButton := fun _ => some ⟨888, 9⟩
    reqRegion := fun _ => some ⟨0, 0, 100, 100⟩
    detectText := fun s _ => if s = 4 then [⟨"2/5", 7, 50, 0, 0⟩] else []
    popup := fun s => if s = 3 then true else if s = 11 then b else false }

/-- Like `envC6`, but the re-scan after dismissing the popup finds
nothing at all. -/
def envC6Empty : FactoryEnv ℕ :=
  { click := fun s _ _ => s + 1
    escKey := fun s => s + 1
    blueButton := fun _ => some ⟨999, 5⟩
    confirmButton := fun _ => some ⟨888, 9⟩
    reqRegion := fun _ => some ⟨0, 0, 100, 100⟩
    detectText := fun _ _ => []
    popup := fun s => s == 3 }

/-- C6 counterexample: the popup is dismissed, the re-scan deficit is
resolved and confirm is retried once — but the popup is never checked
again after that retry: with the popup still present at the final
state (state 11), the resolver reports success (`True`), not a
resolution failure. -/
theorem C6_counterexample :
    craftMaterialDfs (envC6 true) 100 0 0 0 0 = some (11, true, [0, 1]) ∧
      (envC6 true).popup 11 = true := by
  constructor
  · decide
  · decide

/-- C6 amended: after the confirm click pops the "Not Enough
Materials" popup, the resolver dismisses it, re-scans, resolves the
newly found deficits and retries confirm exactly once; if the re-scan
finds no deficit it returns failure; but the outcome of the retried
confirm is never verified — the result is success regardless of
whether the popup is present after the retry (`b` below). -/
theorem C6_retry_unverified :
    (∀ b, craftMaterialDfs (envC6 b) 100 0 0 0 0 = some (11, true, [0, 1])) ∧
      craftMaterialDfs envC6Empty 100 0 0 0 0 = some (4, false, [0]) := by
  constructor
  · intro b
    cases b <;> decide
  · decide

/-! ## src/task_automation.py and src/material_scanner.py -/

/-- Embeds `''.join(filter(str.isdigit, text))` then `int(...)`
(task_automation.py lines 466-468): every digit character of the OCR
output, concatenated; `none` when there is no digit. -/
def digitsValue (text : String) : Option ℕ :=
  let ds := text.toList.filter Char.isDigit
  if ds.isEmpty then none else some (natOfDigits ds)

/-- Insertion of a value into an ascending list. -/
def insertAsc (x : ℕ) : List ℕ → List ℕ
  | [] => [x]
  | y :: ys => if x ≤ y then x :: y :: ys else y :: insertAsc x ys

/-- Ascending insertion sort. -/
def sortAsc : List ℕ → List ℕ
  | [] => []
  | x :: xs => insertAsc x (sortAsc xs)

/-- Model of iterating CPython `set(results)`: small non-negative ints
hash to themselves, so distinct values below the initial table size 8
occupy distinct slots and are visited in increasing numeric order;
this model (dedup + ascending sort) is exact for such inputs, and when
one value holds a strict majority the element selected by
`max(..., key=results.count)` does not depend on the iteration order
at all. -/
def pySetAscending (l : List ℕ) : List ℕ :=
  sortAsc l.dedup

/-- Python `max(iterable, key=key)`: the first element attaining the
maximal key (later elements replace the best only on a strictly
greater key). -/
def pyMaxBy (key : ℕ → ℕ) : List ℕ → Option ℕ
  | [] => none
  | x :: xs => some (xs.foldl (fun best y => if key best < key y then y else best) x)

/-- The result-selection stage of `TaskAutomation._ocr_number`
(task_automation.py lines 461-489): the three preprocessing variants'
OCR texts (external `pytesseract` outputs, passed in here) are parsed
to integers, and the returned value is
`max(set(results), key=results.count)` — the most frequent result,
with ties broken by set-iteration order, not by variant order. -/
def ocrNumber (texts : List String) : Option ℕ :=
  let results := texts.filterMap digitsValue
  if results.isEmpty then none
  else pyMaxBy (fun v => results.count v) (pySetAscending results)

/-- C7: the majority case works as specified — variants {24, 24, 7}
yield 24 — but when all three variant results differ the selection is
`max(set(results), key=results.count)`, which on all-tied counts
returns the first element in set-iteration order: for variant results
[5, 3, 6] CPython iterates the set as 3, 5, 6 and the reader returns
3, not the first variant's result 5 that both the spec and the code's
own comment ("Return most common result, or first valid one")
promise. -/
theorem C7_vote_eval :
    ocrNumber ["24", "24", "7"] = some 24 ∧ ocrNumber ["5", "3", "6"] = some 3 := by
  constructor
  · decide
  · decide

/-- The leftmost digit run of a string:
`re.findall(r'\d+', text)[0]` when it exists. -/
def firstDigitRun : List Char → Option (List Char)
  | [] => none
  | c :: cs => if c.isDigit then some (takeDigits (c :: cs)).1 else firstDigitRun cs

/-- The parse stage of `MaterialScanner._read_number_from_region`
(material_scanner.py lines 399-413): the OCR engine's text (external,
passed in) is searched for its first digit run, which becomes the
reading; no digits means `None` — an unreadable quantity is never
parsed as 0. -/
def readNumberParse (text : String) : Option ℕ :=
  (firstDigitRun text.toList).map natOfDigits

/-- A material record entering `read_material_quantities`: the fields
the function reads (`x`, `y`, `height`). -/
structure ScannedMat where
  x : ℤ
  y : ℤ
  height : ℤ
deriving DecidableEq

/-- A material record leaving `read_material_quantities`, with the
`warehouse_stock` and `needed` fields it adds. -/
structure MatQuant where
  x : ℤ
  y : ℤ
  height : ℤ
  warehouseStock : ℕ
  needed : Option ℕ
deriving DecidableEq

/-- Oracle environment for `read_material_quantities`: the Deliver
template match and the OCR text produced for a read region
`(x, y, w, h)` and color flag. -/
structure ScanEnv where
  deliverMatch : Option Pos
  ocrText : ℤ → ℤ → ℤ → ℤ → Bool → String

/-- Embeds `_read_number_from_region` (material_scanner.py lines 366-413)
with `pytesseract` available: capture and preprocessing are external;
the OCR text is parsed by `readNumberParse`. -/
def readNumberFromRegion (env : ScanEnv) (x y w h : ℤ) (isRed : Bool) : Option ℕ :=
  readNumberParse (env.ocrText x y w h isRed)

/-- Embeds `read_material_quantities` (material_scanner.py lines 415-475):
read the needed amount right of the Deliver text when that template is
found, then for every material read the red stock number below the
icon and store `warehouse_stock = reading if reading is not None else
0` (line 463) and the shared `needed` amount. -/
def readMaterialQuantities (env : ScanEnv) (mats : List ScannedMat) : List MatQuant :=
  let needed : Option ℕ :=
    match env.deliverMatch with
    | none => none
    | some dm => readNumberFromRegion env (dm.x + 150) (dm.y - 5) 80 30 false
  mats.map fun m =>
    let stock := readNumberFromRegion env (m.x - 10) (m.y + m.height + 5) 50 25 true
    { x := m.x, y := m.y, height := m.height
      warehouseStock := match stock with | some v => v | none => 0
      needed := needed }

/-- A number detected on a task card by `_find_material_numbers`
(task_automation.py lines 657-662). -/
structure NumberPos where
  x : ℤ
  y : ℤ
  isRed : Bool
  value : Option ℕ
deriving DecidableEq

/-- task_automation.py line 909:
`warehouse_stock = red_number['value'] if red_number['value'] is not
None else 0`. -/
def workflowWarehouseStock (red : NumberPos) : ℕ :=
  match red.value with
  | some v => v
  | none => 0

/-- C1 counterexample: a card whose red stock number is unreadable
(OCR text "??", no digits) produces exactly the same records as one
whose stock reads 0 — `read_material_quantities` stores
`warehouse_stock = 0` for the `None` reading — and
`run_full_workflow`'s red-number consumer likewise collapses a `None`
value to 0.  The reader itself does propagate `None` ("??" parses to
`None`, not 0); the consumers silently replace it with zero. -/
theorem C1_counterexample :
    readMaterialQuantities ⟨none, fun _ _ _ _ _ => "??"⟩ [⟨40, 50, 12⟩] =
        readMaterialQuantities ⟨none, fun _ _ _ _ _ => "0"⟩ [⟨40, 50, 12⟩] ∧
      (readMaterialQuantities ⟨none, fun _ _ _ _ _ => "??"⟩ [⟨40, 50, 12⟩]).map
          (·.warehouseStock) = [0] ∧
      readNumberParse "??" = none ∧
      workflowWarehouseStock ⟨10, 20, true, none⟩ =
        workflowWarehouseStock ⟨10, 20, true, some 0⟩ := by
  refine ⟨?_, ?_, ?_, ?_⟩ <;> decide

/-- C1 amended: the readers propagate an unreadable OCR result as
`None` (a digit-free text never parses to 0), but both cited consumers
substitute 0 for it: the stored `warehouse_stock` values are identical
under an always-unreadable OCR oracle and an always-0 OCR oracle, and
the workflow's red-number consumer maps a `None` value and a `some 0`
value to the same stock. -/
theorem C1_none_collapsed_to_zero (dm : Option Pos)
    (ot oz : ℤ → ℤ → ℤ → ℤ → Bool → String) (mats : List ScannedMat)
    (red : NumberPos) (hred : red.value = none)
    (hnone : ∀ x y w h r, readNumberParse (ot x y w h r) = none)
    (hzero : ∀ x y w h r, readNumberParse (oz x y w h r) = some 0) :
    (readMaterialQuantities ⟨dm, ot⟩ mats).map (·.warehouseStock) =
        (readMaterialQuantities ⟨dm, oz⟩ mats).map (·.warehouseStock) ∧
      workflowWarehouseStock red = workflowWarehouseStock ⟨red.x, red.y, red.isRed, some 0⟩ := by
  constructor
  · simp [readMaterialQuantities, readNumberFromRegion, hnone, hzero]
  · simp [workflowWarehouseStock, hred]

/-- Witness for C1 amended: the empty OCR text against the "0" OCR
text, one material, one red number. -/
theorem C1_none_collapsed_witness :
    (readMaterialQuantities ⟨none, fun _ _ _ _ _ => ""⟩ [⟨1, 2, 3⟩]).map
        (·.warehouseStock) =
      (readMaterialQuantities ⟨none, fun _ _ _ _ _ => "0"⟩ [⟨1, 2, 3⟩]).map
        (·.warehouseStock) ∧
      workflowWarehouseStock ⟨7, 8, true, none⟩ =
        workflowWarehouseStock ⟨7, 8, true, some 0⟩ :=
  C1_none_collapsed_to_zero none (fun _ _ _ _ _ => "") (fun _ _ _ _ _ => "0")
    [⟨1, 2, 3⟩] ⟨7, 8, true, none⟩ rfl (fun _ _ _ _ _ => rfl) (fun _ _ _ _ _ => rfl)

/-! ## src/task_automation.py : run_full_workflow (claim C10) -/

/-- A Python exception relevant to the workflow: the `AttributeError`
raised by a missing attribute, or `pyautogui.FailSafeException`. -/
inductive PyExc where
  | attributeError
  | failSafe
deriving DecidableEq

/-- The methods actually defined on class `TaskAutomation`
(task_automation.py lines 29-985).  `process_material_queue` is only a
commented-out stub (lines 202-213). -/
def taskAutomationMethods : List String :=
  ["__init__", "safe_click", "locate_and_click", "open_task_menu",
   "select_full_task", "scan_materials", "check_material_sufficiency",
   "close_task_dialog", "open_warehouse", "get_task_card_bounds_from_click",
   "_find_and_click_blue_button", "_dispatch_trains_for_material_generation",
   "_ocr_number", "_find_deliver_amount", "_find_material_numbers",
   "run_full_workflow"]

/-- Python attribute lookup on a `TaskAutomation` instance: calling a
missing method raises `AttributeError`. -/
def callMethod (name : String) : Except PyExc Unit :=
  if name ∈ taskAutomationMethods then Except.ok () else Except.error PyExc.attributeError

/-- Embeds `get_task_card_bounds_from_click` (task_automation.py lines
215-242): the first detected card containing the click, else an
estimated card around it. -/
def getTaskCardBounds (cards : List Region) (clickX clickY : ℤ) : Region :=
  match cards.find? (fun c => decide (c.x ≤ clickX ∧ clickX ≤ c.x + c.w ∧
      c.y ≤ clickY ∧ clickY ≤ c.y + c.h)) with
  | some c => c
  | none => ⟨clickX - 180, 150, 360, 600⟩

/-- Constant `CLICK_OFFSET_Y` (detection_config.py line 115). -/
def CLICK_OFFSET_Y : ℚ := -(46 / 1000)

/-- Oracle environment for one `run_full_workflow` cycle: the outcome
of each screen-reading or clicking step the control flow branches
on. -/
structure WorkflowEnv where
  hasAvailableOperators : Bool
  availableOperatorCount : ℕ
  openTaskMenuOk : Bool
  collectTasksButton : Option Pos
  taskCards : List Region
  firstAvailableTask : Option Pos
  materialNumbers : List NumberPos
  deliverAmount : Option ℕ
  blueButtonFound : Bool
  generationSuccess : Bool
  dispatchSuccess : Bool
  openWarehouseOk : Bool

/-- The `try:` body of `run_full_workflow` (task_automation.py lines
672-976), with each externally-read step drawn from the environment
and the pure branching logic translated from the source: no operators
or no task menu or no available task returns `False`; no detected
material numbers, or only black ones, starts the task and returns
`True` (lines 759-813, 830-886, 973-976); red numbers route through
the deliver amount (line 894 returns `False` when unreadable), the
first red number's stock (line 909), and the blue-button popup path
(line 948 returns `False` after generation); when the blue button is
not found — or no red number exists despite `has_red` — control falls
through to closing the dialog, opening the warehouse (line 962 returns
`False` on failure) and calling `self.process_material_queue()` (line
967), an attribute that does not exist. -/
def runFullWorkflowTry (env : WorkflowEnv) : Except PyExc Bool :=
  if !env.hasAvailableOperators then Except.ok false
  else if !env.openTaskMenuOk then Except.ok false
  else
    match env.firstAvailableTask with
    | none => Except.ok false
    | some task =>
      let _card := getTaskCardBounds env.taskCards task.x task.y
      let nums := env.materialNumbers
      if nums.isEmpty then Except.ok true
      else
        let hasRed := nums.any (·.isRed)
        let hasBlack := nums.any fun n => !n.isRed
        if hasBlack && !hasRed then Except.ok true
        else
          match env.deliverAmount with
          | none => Except.ok false
          | some _ =>
            let fallback : Except PyExc Bool :=
              if !env.openWarehouseOk then Except.ok false
              else
                match callMethod "process_material_queue" with
                | Except.error e => Except.error e
                | Except.ok _ => Except.ok false
            match nums.find? (·.isRed) with
            | some red =>
              let _stock := workflowWarehouseStock red
              let _clickY : ℚ := (red.y : ℚ) + CLICK_OFFSET_Y
              if env.blueButtonFound then Except.ok false
              else fallback
            | none => fallback

/-- Embeds `run_full_workflow` with its exception handlers (task_automation.py
lines 978-985): `FailSafeException` is re-raised, any other exception
is caught, printed and turned into the `False` cycle result. -/
def runFullWorkflow (env : WorkflowEnv) : Except PyExc Bool :=
  match runFullWorkflowTry env with
  | Except.ok b => Except.ok b
  | Except.error PyExc.failSafe => Except.error PyExc.failSafe
  | Except.error _ => Except.ok false

/-- C10: whenever a cycle reaches the warehouse-collection fallback
path (red numbers detected, deliver amount read, blue-button
navigation failed) and `open_warehouse` succeeds, the
`self.process_material_queue()` call raises `AttributeError` — the
method is not defined on `TaskAutomation` — which the generic handler
catches, so the cycle returns `False` and the process does not
crash. -/
theorem C10_missing_method_caught (env : WorkflowEnv) (p : Pos) (d : ℕ)
    (hop : env.hasAvailableOperators = true)
    (hmenu : env.openTaskMenuOk = true)
    (htask : env.firstAvailableTask = some p)
    (hred : env.materialNumbers.any (·.isRed) = true)
    (hdeliver : env.deliverAmount = some d)
    (hblue : env.blueButtonFound = false)
    (hwh : env.openWarehouseOk = true) :
    runFullWorkflowTry env = Except.error PyExc.attributeError ∧
      runFullWorkflow env = Except.ok false := by
  have hne : env.materialNumbers.isEmpty = false := by
    cases h : env.materialNumbers with
    | nil => rw [h] at hred; simp at hred
    | cons a l => simp [h]
  have hfind : ∃ red, env.materialNumbers.find? (·.isRed) = some red := by
    rw [← Option.isSome_iff_exists, List.find?_isSome]
    simpa using List.any_eq_true.mp hred
  obtain ⟨red, hredfind⟩ := hfind
  have hcall : callMethod "process_material_queue" =
      Except.error PyExc.attributeError := by rfl
  have htry : runFullWorkflowTry env = Except.error PyExc.attributeError := by
    simp [runFullWorkflowTry, hop, hmenu, htask, hne, hred, hdeliver, hredfind,
      hblue, hwh, hcall]
  exact ⟨htry, by simp [runFullWorkflow, htry]⟩

/-- A concrete cycle on the fallback path. -/
def c10Env : WorkflowEnv :=
  { hasAvailableOperators := true
    availableOperatorCount := 2
    openTaskMenuOk := true
    collectTasksButton := none
    taskCards := [⟨100, 150, 360, 600⟩]
    firstAvailableTask := some ⟨200, 300⟩
    materialNumbers := [⟨250, 400, true, some 3⟩]
    deliverAmount := some 80
    blueButtonFound := false
    generationSuccess := false
    dispatchSuccess := false
    openWarehouseOk := true }

/-- Witness for C10 on the concrete fallback cycle. -/
theorem C10_missing_method_witness :
    runFullWorkflowTry c10Env = Except.error PyExc.attributeError ∧
      runFullWorkflow c10Env = Except.ok false :=
  C10_missing_method_caught c10Env ⟨200, 300⟩ 80 rfl rfl rfl (by decide) rfl rfl rfl

end TrainFarm
